import Mathlib

/-!
Verification development for the Unscented Kalman Filter implementation in
`src/ukf.cpp` (class `UKF`).  The C++ code is shallowly embedded: `double`
values become real numbers, `Eigen` vectors and matrices become `Fin`-indexed
functions and `Matrix`, `std::vector<double>` histories become `List ℝ`, and
the mutable member state of the `UKF` object becomes an explicit record that
every operation maps to a new record.
-/

noncomputable section

namespace UKF

/-! ### Fixed configuration (UKF constructor, ukf.cpp lines 11-80) -/

/-- Process noise standard deviation, longitudinal acceleration (line 25). -/
def std_a_ : ℝ := 2.8

/-- Process noise standard deviation, yaw acceleration (line 28). -/
def std_yawdd_ : ℝ := 1.1

/-- Laser measurement noise standard deviation, position1 (line 36). -/
def std_laspx_ : ℝ := 0.15

/-- Laser measurement noise standard deviation, position2 (line 39). -/
def std_laspy_ : ℝ := 0.15

/-- Radar measurement noise standard deviation, radius (line 42). -/
def std_radr_ : ℝ := 0.3

/-- Radar measurement noise standard deviation, angle (line 45). -/
def std_radphi_ : ℝ := 0.03

/-- Radar measurement noise standard deviation, radius change (line 48). -/
def std_radrd_ : ℝ := 0.3

/-- State dimension `n_x_ = x_.size()` (line 63). -/
def n_x_ : ℕ := 5

/-- Augmented dimension `n_aug_ = n_x_ + 2` (line 66). -/
def n_aug_ : ℕ := n_x_ + 2

/-- Number of sigma points `n_sig_ = 2 * n_aug_ + 1` (line 69). -/
def n_sig_ : ℕ := 2 * n_aug_ + 1

/-- Spreading parameter `lambda_ = 3 - n_aug_` (line 72). -/
def lambda_ : ℝ := 3 - (n_aug_ : ℝ)

/-! ### Measurement packages

Modelled from the spec: `measurement_package.h` is not among the repository's
source files.  Per spec §6 a measurement record carries a sensor type
(`LIDAR|RADAR`), a timestamp in microseconds, and the raw values.  The sensor
type is carried by a C++ `enum`, an integral type, so it is embedded as an
integer with the two named values below; radar uses three raw components and
lidar the first two. -/
structure MeasurementPackage where
  sensor_type_ : ℤ
  timestamp_ : ℤ
  raw_measurements_ : Fin 3 → ℝ

/-- The `LASER` value of `MeasurementPackage::SensorType`. -/
def LASER : ℤ := 0

/-- The `RADAR` value of `MeasurementPackage::SensorType`. -/
def RADAR : ℤ := 1

/-- The error kinds of spec §7.  Modelled from the spec: the C++ source never
raises any of these (its functions return `void` and contain no `throw`); the
type exists so that the presence or absence of a caller-visible signal can be
stated. -/
inductive UKFError where
  | InitializationError
  | NonPositiveDefiniteCovariance
  | SingularInnovationCovariance
  | DegenerateRadarGeometry
deriving DecidableEq

/-- The mutable member state of the `UKF` object (ukf.h fields, as used by
ukf.cpp). -/
structure UKFState where
  is_initialized_ : Bool
  x_ : Fin 5 → ℝ
  P_ : Matrix (Fin 5) (Fin 5) ℝ
  time_us_ : ℤ
  Xsig_pred_ : Matrix (Fin 5) (Fin 15) ℝ
  weights_ : Fin 15 → ℝ
  nis_radar_ : List ℝ
  nis_laser_ : List ℝ

/-! ### Angle normalization

The source normalizes an angle residual with two sequential `while` loops
(e.g. ukf.cpp lines 240-241):

    while (a >  M_PI) a -= 2.*M_PI;
    while (a < -M_PI) a += 2.*M_PI;

Each loop is embedded as a well-founded recursion whose measure is the number
of remaining iterations. -/

/-- The first loop: `while (a > M_PI) a -= 2.*M_PI;`. -/
def normTop (x : ℝ) : ℝ :=
  if h : Real.pi < x then normTop (x - 2 * Real.pi) else x
termination_by (⌈(x - Real.pi) / (2 * Real.pi)⌉).toNat
decreasing_by
  have hpi : (0:ℝ) < Real.pi := Real.pi_pos
  have h2 : (0:ℝ) < 2 * Real.pi := by linarith
  have hk : (1:ℤ) ≤ ⌈(x - Real.pi) / (2 * Real.pi)⌉ := by
    have hq : (0:ℝ) < (x - Real.pi) / (2 * Real.pi) := by
      apply div_pos _ h2
      linarith
    exact Int.ceil_pos.mpr hq
  have hstep : (x - 2 * Real.pi - Real.pi) / (2 * Real.pi)
      = (x - Real.pi) / (2 * Real.pi) - 1 := by
    field_simp
    ring
  rw [hstep, Int.ceil_sub_one]
  omega

/-- The second loop: `while (a < -M_PI) a += 2.*M_PI;`. -/
def normBot (x : ℝ) : ℝ :=
  if h : x < -Real.pi then normBot (x + 2 * Real.pi) else x
termination_by (⌈(-Real.pi - x) / (2 * Real.pi)⌉).toNat
decreasing_by
  have hpi : (0:ℝ) < Real.pi := Real.pi_pos
  have h2 : (0:ℝ) < 2 * Real.pi := by linarith
  have hk : (1:ℤ) ≤ ⌈(-Real.pi - x) / (2 * Real.pi)⌉ := by
    have hq : (0:ℝ) < (-Real.pi - x) / (2 * Real.pi) := by
      apply div_pos _ h2
      linarith
    exact Int.ceil_pos.mpr hq
  have hstep : (-Real.pi - (x + 2 * Real.pi)) / (2 * Real.pi)
      = (-Real.pi - x) / (2 * Real.pi) - 1 := by
    field_simp
    ring
  rw [hstep, Int.ceil_sub_one]
  omega

/-- Both loops in sequence, as every angle-normalization site runs them. -/
def normalizeAngle (x : ℝ) : ℝ := normBot (normTop x)

lemma normTop_spec (x : ℝ) :
    ∃ k : ℤ, normTop x = x - 2 * Real.pi * k ∧ normTop x ≤ Real.pi := by
  induction x using normTop.induct with
  | case1 x h ih =>
    obtain ⟨k, hk, hle⟩ := ih
    refine ⟨k + 1, ?_, ?_⟩
    · rw [normTop, dif_pos h, hk]
      push_cast
      ring
    · rw [normTop, dif_pos h]
      exact hle
  | case2 x h =>
    refine ⟨0, ?_, ?_⟩
    · rw [normTop, dif_neg h]
      push_cast
      ring
    · rw [normTop, dif_neg h]
      linarith [not_lt.mp h]

lemma normBot_spec (x : ℝ) :
    ∃ k : ℤ, normBot x = x + 2 * Real.pi * k ∧ -Real.pi ≤ normBot x ∧
      (x ≤ Real.pi → normBot x ≤ Real.pi) := by
  induction x using normBot.induct with
  | case1 x h ih =>
    obtain ⟨k, hk, hge, hub⟩ := ih
    have hpi : (0:ℝ) < Real.pi := Real.pi_pos
    refine ⟨k + 1, ?_, ?_, ?_⟩
    · rw [normBot, dif_pos h, hk]
      push_cast
      ring
    · rw [normBot, dif_pos h]
      exact hge
    · intro _
      rw [normBot, dif_pos h]
      exact hub (by linarith)
  | case2 x h =>
    refine ⟨0, ?_, ?_, ?_⟩
    · rw [normBot, dif_neg h]
      push_cast
      ring
    · rw [normBot, dif_neg h]
      linarith [not_lt.mp h]
    · intro hx
      rw [normBot, dif_neg h]
      exact hx

/-- Combined loop invariant: the result differs from the input by an integer
multiple of `2π` and lies in the closed interval `[-π, π]`. -/
lemma normalizeAngle_spec (x : ℝ) :
    ∃ k : ℤ, normalizeAngle x = x - 2 * Real.pi * k ∧
      -Real.pi ≤ normalizeAngle x ∧ normalizeAngle x ≤ Real.pi := by
  obtain ⟨k₁, hk₁, hle₁⟩ := normTop_spec x
  obtain ⟨k₂, hk₂, hge₂, hub₂⟩ := normBot_spec (normTop x)
  refine ⟨k₁ - k₂, ?_, ?_, ?_⟩
  · rw [normalizeAngle, hk₂, hk₁]
    push_cast
    ring
  · rw [normalizeAngle]
    exact hge₂
  · rw [normalizeAngle]
    exact hub₂ hle₁

/-! ### CTRV sigma-point propagation (ukf.cpp lines 180-218)

One augmented sigma point `(p_x, p_y, v, yaw, yawd, nu_a, nu_yawdd)` is
propagated over `delta_t`, guarding the division by the yaw rate. -/

/-- The body of the `predict sigma points` loop for one column. -/
def ctrvProcess (delta_t : ℝ) (pt : Fin 7 → ℝ) : Fin 5 → ℝ :=
  let p_x := pt 0
  let p_y := pt 1
  let v := pt 2
  let yaw := pt 3
  let yawd := pt 4
  let nu_a := pt 5
  let nu_yawdd := pt 6
  let px_p := if |yawd| > 0.001 then
      p_x + v / yawd * (Real.sin (yaw + yawd * delta_t) - Real.sin yaw)
    else
      p_x + v * delta_t * Real.cos yaw
  let py_p := if |yawd| > 0.001 then
      p_y + v / yawd * (Real.cos yaw - Real.cos (yaw + yawd * delta_t))
    else
      p_y + v * delta_t * Real.sin yaw
  let v_p := v
  let yaw_p := yaw + yawd * delta_t
  let yawd_p := yawd
  ![px_p + 0.5 * nu_a * delta_t * delta_t * Real.cos yaw,
    py_p + 0.5 * nu_a * delta_t * delta_t * Real.sin yaw,
    v_p + nu_a * delta_t,
    yaw_p + 0.5 * nu_yawdd * delta_t * delta_t,
    yawd_p + nu_yawdd * delta_t]

/-! ### Sigma-point weights (ukf.cpp lines 220-226) -/

/-- The weight vector `Prediction` fills: `weights_(0) = lambda_/(lambda_+n_aug_)`
and `weights_(i) = 0.5/(n_aug_+lambda_)` for `i = 1..2*n_aug_`. -/
def weightsVec : Fin 15 → ℝ := fun i =>
  if (i : ℕ) = 0 then lambda_ / (lambda_ + (n_aug_ : ℝ))
  else 0.5 / ((n_aug_ : ℝ) + lambda_)

/-- The state residual of sigma point `k` against a mean `x`, with the yaw
component (index 3) angle-normalized, as in ukf.cpp lines 238-241, 298-302
and 394-397. -/
def stateDiff (Xsig : Matrix (Fin 5) (Fin 15) ℝ) (x : Fin 5 → ℝ) (k : Fin 15) :
    Fin 5 → ℝ := fun r =>
  if (r : ℕ) = 3 then normalizeAngle (Xsig r k - x r) else Xsig r k - x r

/-! ### Cholesky factor

`Prediction` calls Eigen's `P_aug.llt().matrixL()` (ukf.cpp line 169), the
lower-triangular Cholesky factor.  Eigen is an external library, so its
routine is embedded by the standard outer-product Cholesky recursion (which
agrees with LLT on positive-definite input; on other input both produce
unspecified values). -/
def cholAux : (n : ℕ) → (Fin n → Fin n → ℝ) → (Fin n → Fin n → ℝ)
  | 0, _ => fun i _ => i.elim0
  | n + 1, A =>
    let d := Real.sqrt (A 0 0)
    let c : Fin n → ℝ := fun i => A i.succ 0 / d
    let L := cholAux n (fun i j => A i.succ j.succ - c i * c j)
    fun i j =>
      Fin.cases (Fin.cases d (fun _ => 0) j)
        (fun i2 => Fin.cases (c i2) (fun j2 => L i2 j2) j) i

/-! ### Prediction (ukf.cpp lines 143-245) -/

/-- `UKF::Prediction(delta_t)`: builds the augmented mean and covariance,
generates and propagates the 15 sigma points, sets the weights and recombines
into the predicted mean `x_` and covariance `P_`. -/
def Prediction (delta_t : ℝ) (s : UKFState) : UKFState :=
  let x_aug : Fin 7 → ℝ := fun i => if h : (i : ℕ) < 5 then s.x_ ⟨i, h⟩ else 0
  let P_aug : Matrix (Fin 7) (Fin 7) ℝ := Matrix.of fun i j =>
    if hi : (i : ℕ) < 5 then
      (if hj : (j : ℕ) < 5 then s.P_ ⟨i, hi⟩ ⟨j, hj⟩ else 0)
    else if hj : (j : ℕ) < 5 then 0
    else if (i : ℕ) = 5 ∧ (j : ℕ) = 5 then std_a_ * std_a_
    else if (i : ℕ) = 6 ∧ (j : ℕ) = 6 then std_yawdd_ * std_yawdd_
    else 0
  let L := cholAux 7 P_aug
  let Xsig_aug : Matrix (Fin 7) (Fin 15) ℝ := Matrix.of fun r k =>
    if (k : ℕ) = 0 then x_aug r
    else if hk : (k : ℕ) < 8 then
      x_aug r + Real.sqrt (lambda_ + (n_aug_ : ℝ)) * L r ⟨(k : ℕ) - 1, by omega⟩
    else
      x_aug r - Real.sqrt (lambda_ + (n_aug_ : ℝ)) *
        L r ⟨(k : ℕ) - 8, by have := k.isLt; omega⟩
  let Xsig_pred : Matrix (Fin 5) (Fin 15) ℝ := Matrix.of fun r k =>
    ctrvProcess delta_t (fun j => Xsig_aug j k) r
  let w := weightsVec
  let x : Fin 5 → ℝ := fun r => ∑ k : Fin 15, w k * Xsig_pred r k
  let P : Matrix (Fin 5) (Fin 5) ℝ := Matrix.of fun r c =>
    ∑ k : Fin 15, w k * (stateDiff Xsig_pred x k r * stateDiff Xsig_pred x k c)
  { s with x_ := x, P_ := P, Xsig_pred_ := Xsig_pred, weights_ := w }

/-! ### Lidar update (ukf.cpp lines 247-321) -/

/-- Lidar measurement noise covariance `R` (lines 285-287). -/
def lidarR : Matrix (Fin 2) (Fin 2) ℝ :=
  !![std_laspx_ * std_laspx_, 0; 0, std_laspy_ * std_laspy_]

/-- Predicted sigma points in lidar measurement space (lines 265-273):
`Zsig.col(i) << px, py`. -/
def lidarZsig (s : UKFState) : Matrix (Fin 2) (Fin 15) ℝ :=
  Matrix.of fun r k => s.Xsig_pred_ ⟨(r : ℕ), by have := r.isLt; omega⟩ k

/-- Mean predicted lidar measurement `z_pred` (line 272). -/
def lidarZpred (s : UKFState) : Fin 2 → ℝ :=
  fun r => ∑ k : Fin 15, s.weights_ k * lidarZsig s r k

/-- Lidar innovation covariance `S` (lines 276-288). -/
def lidarS (s : UKFState) : Matrix (Fin 2) (Fin 2) ℝ :=
  (Matrix.of fun r c => ∑ k : Fin 15, s.weights_ k *
    ((lidarZsig s r k - lidarZpred s r) * (lidarZsig s c k - lidarZpred s c))) + lidarR

/-- Incoming lidar measurement `z` (lines 291-292). -/
def lidarZ (m : MeasurementPackage) : Fin 2 → ℝ :=
  ![m.raw_measurements_ 0, m.raw_measurements_ 1]

/-- Lidar cross-correlation `Tc` (lines 295-307). -/
def lidarTc (s : UKFState) : Matrix (Fin 5) (Fin 2) ℝ :=
  Matrix.of fun r c => ∑ k : Fin 15, s.weights_ k *
    (stateDiff s.Xsig_pred_ s.x_ k r * (lidarZsig s c k - lidarZpred s c))

/-- Lidar Kalman gain `K = Tc * S.inverse()` (line 310). -/
def lidarK (s : UKFState) : Matrix (Fin 5) (Fin 2) ℝ := lidarTc s * (lidarS s)⁻¹

/-- The lidar NIS scalar `z_diff.transpose() * S.inverse() * z_diff`
(line 316). -/
def lidarNIS (m : MeasurementPackage) (s : UKFState) : ℝ :=
  Matrix.dotProduct (lidarZ m - lidarZpred s)
    ((lidarS s)⁻¹.mulVec (lidarZ m - lidarZpred s))

/-- `UKF::UpdateLidar` (lines 247-321): appends the NIS scalar to
`nis_laser_` and applies the Kalman correction to `x_` and `P_`. -/
def UpdateLidar (m : MeasurementPackage) (s : UKFState) : UKFState :=
  { s with
    x_ := s.x_ + (lidarK s).mulVec (lidarZ m - lidarZpred s),
    P_ := s.P_ - lidarK s * lidarS s * (lidarK s).transpose,
    nis_laser_ := s.nis_laser_ ++ [lidarNIS m s] }

/-! ### Radar update (ukf.cpp lines 323-418) -/

/-- C's `atan2(y, x)`, embedded as the argument of the complex number
`x + y i`, which lies in `(-π, π]` and is `0` at the origin. -/
def atan2 (y x : ℝ) : ℝ := Complex.arg ⟨x, y⟩

/-- Predicted sigma points in radar measurement space (lines 340-355):
range, bearing and range rate. -/
def radarZsig (s : UKFState) : Matrix (Fin 3) (Fin 15) ℝ :=
  Matrix.of fun r k =>
    let p_x := s.Xsig_pred_ 0 k
    let p_y := s.Xsig_pred_ 1 k
    let v := s.Xsig_pred_ 2 k
    let yaw := s.Xsig_pred_ 3 k
    let v_x := Real.cos yaw * v
    let v_y := Real.sin yaw * v
    if (r : ℕ) = 0 then Real.sqrt (p_x * p_x + p_y * p_y)
    else if (r : ℕ) = 1 then atan2 p_y p_x
    else (p_x * v_x + p_y * v_y) / Real.sqrt (p_x * p_x + p_y * p_y)

/-- Mean predicted radar measurement `z_pred` (line 354). -/
def radarZpred (s : UKFState) : Fin 3 → ℝ :=
  fun r => ∑ k : Fin 15, s.weights_ k * radarZsig s r k

/-- The radar residual of sigma point `k` against `z_pred`, bearing component
angle-normalized (lines 363-367 and 388-391). -/
def radarZdiffN (s : UKFState) (k : Fin 15) : Fin 3 → ℝ := fun r =>
  if (r : ℕ) = 1 then normalizeAngle (radarZsig s r k - radarZpred s r)
  else radarZsig s r k - radarZpred s r

/-- Radar measurement noise covariance `R` (lines 373-376). -/
def radarR : Matrix (Fin 3) (Fin 3) ℝ :=
  !![std_radr_ * std_radr_, 0, 0;
     0, std_radphi_ * std_radphi_, 0;
     0, 0, std_radrd_ * std_radrd_]

/-- Radar innovation covariance `S` (lines 359-377). -/
def radarS (s : UKFState) : Matrix (Fin 3) (Fin 3) ℝ :=
  (Matrix.of fun r c => ∑ k : Fin 15, s.weights_ k *
    (radarZdiffN s k r * radarZdiffN s k c)) + radarR

/-- Incoming radar measurement `z` (lines 380-381). -/
def radarZ (m : MeasurementPackage) : Fin 3 → ℝ :=
  ![m.raw_measurements_ 0, m.raw_measurements_ 1, m.raw_measurements_ 2]

/-- Radar cross-correlation `Tc` (lines 384-400). -/
def radarTc (s : UKFState) : Matrix (Fin 5) (Fin 3) ℝ :=
  Matrix.of fun r c => ∑ k : Fin 15, s.weights_ k *
    (stateDiff s.Xsig_pred_ s.x_ k r * radarZdiffN s k c)

/-- Radar Kalman gain `K = Tc * S.inverse()` (line 403). -/
def radarK (s : UKFState) : Matrix (Fin 5) (Fin 3) ℝ := radarTc s * (radarS s)⁻¹

/-- The radar residual `z - z_pred` with normalized bearing (lines 406-410). -/
def radarResid (m : MeasurementPackage) (s : UKFState) : Fin 3 → ℝ := fun r =>
  if (r : ℕ) = 1 then normalizeAngle (radarZ m r - radarZpred s r)
  else radarZ m r - radarZpred s r

/-- The radar NIS scalar `z_diff.transpose() * S.inverse() * z_diff`
(line 413). -/
def radarNIS (m : MeasurementPackage) (s : UKFState) : ℝ :=
  Matrix.dotProduct (radarResid m s) ((radarS s)⁻¹.mulVec (radarResid m s))

/-- `UKF::UpdateRadar` (lines 323-418): appends the NIS scalar to
`nis_radar_` and applies the Kalman correction to `x_` and `P_`. -/
def UpdateRadar (m : MeasurementPackage) (s : UKFState) : UKFState :=
  { s with
    x_ := s.x_ + (radarK s).mulVec (radarResid m s),
    P_ := s.P_ - radarK s * radarS s * (radarK s).transpose,
    nis_radar_ := s.nis_radar_ ++ [radarNIS m s] }

/-! ### ProcessMeasurement (ukf.cpp lines 84-141) -/

/-- First-measurement radar initialization of `x_` (lines 91-97). -/
def radarInitX (m : MeasurementPackage) : Fin 5 → ℝ :=
  let rho := m.raw_measurements_ 0
  let phi := m.raw_measurements_ 1
  let rhodot := m.raw_measurements_ 2
  let vx := rhodot * Real.cos phi
  let vy := rhodot * Real.sin phi
  ![rho * Real.cos phi, rho * Real.sin phi, Real.sqrt (vx * vx + vy * vy), 0, 0]

/-- First-measurement radar initialization of `P_` (lines 100-104). -/
def radarInitP : Matrix (Fin 5) (Fin 5) ℝ :=
  !![std_radr_ * std_radr_, 0, 0, 0, 0;
     0, std_radr_ * std_radr_, 0, 0, 0;
     0, 0, 1, 0, 0;
     0, 0, 0, std_radphi_ * std_radphi_, 0;
     0, 0, 0, 0, std_radphi_ * std_radphi_]

/-- First-measurement lidar initialization of `x_` (lines 108-110). -/
def lidarInitX (m : MeasurementPackage) : Fin 5 → ℝ :=
  ![m.raw_measurements_ 0, m.raw_measurements_ 1, 0, 0, 0]

/-- First-measurement lidar initialization of `P_` (lines 113-117). -/
def lidarInitP : Matrix (Fin 5) (Fin 5) ℝ :=
  !![std_laspx_ * std_laspx_, 0, 0, 0, 0;
     0, std_laspy_ * std_laspy_, 0, 0, 0;
     0, 0, 1, 0, 0;
     0, 0, 0, 1, 0;
     0, 0, 0, 0, 1]

/-- The state reached after the first-call initialization block
(lines 89-123) for a lidar measurement. -/
def lidarFirstState (m : MeasurementPackage) (s : UKFState) : UKFState :=
  { s with x_ := lidarInitX m, P_ := lidarInitP,
           time_us_ := m.timestamp_, is_initialized_ := true }

/-- The state reached after the first-call initialization block
(lines 89-123) for a radar measurement. -/
def radarFirstState (m : MeasurementPackage) (s : UKFState) : UKFState :=
  { s with x_ := radarInitX m, P_ := radarInitP,
           time_us_ := m.timestamp_, is_initialized_ := true }

/-- The state transformation of `UKF::ProcessMeasurement` (lines 84-141):
initialization block on the first call (with no early return), timestamp
update, `Prediction(dt)`, then the sensor-appropriate update. -/
def ProcessMeasurementState (m : MeasurementPackage) (s : UKFState) : UKFState :=
  let s1 :=
    if s.is_initialized_ = false then
      if m.sensor_type_ = RADAR then radarFirstState m s
      else if m.sensor_type_ = LASER then lidarFirstState m s
      else { s with time_us_ := m.timestamp_, is_initialized_ := true }
    else s
  let dt : ℝ := ((m.timestamp_ - s1.time_us_ : ℤ) : ℝ) / 1000000
  let s2 := Prediction dt { s1 with time_us_ := m.timestamp_ }
  if m.sensor_type_ = RADAR then UpdateRadar m s2
  else if m.sensor_type_ = LASER then UpdateLidar m s2
  else s2

/-- `UKF::ProcessMeasurement` as seen by the caller.  The C++ function
returns `void` and contains no `throw`, so the embedding, typed with the
error channel of spec §7, always returns `Except.ok`. -/
def ProcessMeasurement (m : MeasurementPackage) (s : UKFState) :
    Except UKFError UKFState :=
  Except.ok (ProcessMeasurementState m s)

/-- A driver loop feeding measurements in order. -/
def runFilter (ms : List MeasurementPackage) (s : UKFState) : UKFState :=
  ms.foldl (fun st mm => ProcessMeasurementState mm st) s

/-- The rows `(i, nis_radar_[i], nis_laser_[i])` that `UKF::printNIS`
(lines 420-427) reads, for `i` below `nis_radar_.size()`.  A component is
`none` when the vector access would be out of bounds. -/
def printNISRows (s : UKFState) : List (ℕ × Option ℝ × Option ℝ) :=
  (List.range s.nis_radar_.length).map fun i =>
    (i, s.nis_radar_[i]?, s.nis_laser_[i]?)

/-! ### Named intermediate states and concrete states

The remaining definitions name states the theorems below instantiate or
decompose `ProcessMeasurementState` into. -/

/-- The state after the steady-state (already initialized) part of
`ProcessMeasurement` up to and including `Prediction` (lines 125-130):
`dt = (timestamp - time_us_)/1e6`, timestamp update, prediction. -/
def predictedState (m : MeasurementPackage) (s : UKFState) : UKFState :=
  Prediction (((m.timestamp_ - s.time_us_ : ℤ) : ℝ) / 1000000)
    { s with time_us_ := m.timestamp_ }

/-- A freshly constructed estimator: not initialized, empty NIS histories,
numeric members zeroed. -/
def freshState : UKFState :=
  { is_initialized_ := false, x_ := 0, P_ := 0, time_us_ := 0,
    Xsig_pred_ := 0, weights_ := 0, nis_radar_ := [], nis_laser_ := [] }

/-- An initialized estimator whose predicted sigma points are all at the
origin (`px = py = 0` in every column) and whose weights are the ones
`Prediction` sets. -/
def degState : UKFState :=
  { is_initialized_ := true, x_ := 0, P_ := 0, time_us_ := 0,
    Xsig_pred_ := 0, weights_ := weightsVec, nis_radar_ := [], nis_laser_ := [] }

/-- A predicted-sigma-point matrix with a single nonzero entry: the first
component of column 0 is 1, everything else 0. -/
def cexXsig : Matrix (Fin 5) (Fin 15) ℝ :=
  Matrix.of fun r k => if (r : ℕ) = 0 ∧ (k : ℕ) = 0 then 1 else 0

/-- An initialized estimator carrying `cexXsig` as predicted sigma points and
the weights `Prediction` sets. -/
def cexState : UKFState :=
  { is_initialized_ := true, x_ := 0, P_ := 0, time_us_ := 0,
    Xsig_pred_ := cexXsig, weights_ := weightsVec, nis_radar_ := [], nis_laser_ := [] }

/-! ### Structural lemmas: which fields each operation touches -/

@[simp] lemma Prediction_nis_laser (dt : ℝ) (s : UKFState) :
    (Prediction dt s).nis_laser_ = s.nis_laser_ := rfl

@[simp] lemma Prediction_nis_radar (dt : ℝ) (s : UKFState) :
    (Prediction dt s).nis_radar_ = s.nis_radar_ := rfl

@[simp] lemma Prediction_time (dt : ℝ) (s : UKFState) :
    (Prediction dt s).time_us_ = s.time_us_ := rfl

@[simp] lemma Prediction_flag (dt : ℝ) (s : UKFState) :
    (Prediction dt s).is_initialized_ = s.is_initialized_ := rfl

@[simp] lemma Prediction_weights (dt : ℝ) (s : UKFState) :
    (Prediction dt s).weights_ = weightsVec := rfl

@[simp] lemma UpdateLidar_nis_laser (m : MeasurementPackage) (s : UKFState) :
    (UpdateLidar m s).nis_laser_ = s.nis_laser_ ++ [lidarNIS m s] := rfl

@[simp] lemma UpdateLidar_nis_radar (m : MeasurementPackage) (s : UKFState) :
    (UpdateLidar m s).nis_radar_ = s.nis_radar_ := rfl

@[simp] lemma UpdateLidar_time (m : MeasurementPackage) (s : UKFState) :
    (UpdateLidar m s).time_us_ = s.time_us_ := rfl

@[simp] lemma UpdateLidar_flag (m : MeasurementPackage) (s : UKFState) :
    (UpdateLidar m s).is_initialized_ = s.is_initialized_ := rfl

@[simp] lemma UpdateRadar_nis_laser (m : MeasurementPackage) (s : UKFState) :
    (UpdateRadar m s).nis_laser_ = s.nis_laser_ := rfl

@[simp] lemma UpdateRadar_nis_radar (m : MeasurementPackage) (s : UKFState) :
    (UpdateRadar m s).nis_radar_ = s.nis_radar_ ++ [radarNIS m s] := rfl

@[simp] lemma UpdateRadar_time (m : MeasurementPackage) (s : UKFState) :
    (UpdateRadar m s).time_us_ = s.time_us_ := rfl

@[simp] lemma UpdateRadar_flag (m : MeasurementPackage) (s : UKFState) :
    (UpdateRadar m s).is_initialized_ = s.is_initialized_ := rfl

lemma LASER_ne_RADAR : LASER ≠ RADAR := by norm_num [LASER, RADAR]

lemma RADAR_ne_LASER : RADAR ≠ LASER := by norm_num [LASER, RADAR]

/-- On the first call with a lidar measurement, `ProcessMeasurement` runs the
lidar init block, then `Prediction` with `dt = 0`, then `UpdateLidar`. -/
lemma processMeasurementState_first_lidar (m : MeasurementPackage) (s : UKFState)
    (h : s.is_initialized_ = false) (hs : m.sensor_type_ = LASER) :
    ProcessMeasurementState m s = UpdateLidar m (Prediction 0 (lidarFirstState m s)) := by
  have hR : ¬ m.sensor_type_ = RADAR := by
    rw [hs]
    exact LASER_ne_RADAR
  simp [ProcessMeasurementState, h, hR, hs, LASER_ne_RADAR, lidarFirstState,
    sub_self, zero_div]

/-- On the first call with a radar measurement, `ProcessMeasurement` runs the
radar init block, then `Prediction` with `dt = 0`, then `UpdateRadar`. -/
lemma processMeasurementState_first_radar (m : MeasurementPackage) (s : UKFState)
    (h : s.is_initialized_ = false) (hs : m.sensor_type_ = RADAR) :
    ProcessMeasurementState m s = UpdateRadar m (Prediction 0 (radarFirstState m s)) := by
  simp [ProcessMeasurementState, h, hs, radarFirstState, sub_self, zero_div]

/-- On the first call with an unrecognized sensor type, `ProcessMeasurement`
records the timestamp, sets the flag, predicts over `dt = 0` and performs no
update. -/
lemma processMeasurementState_first_unknown (m : MeasurementPackage) (s : UKFState)
    (h : s.is_initialized_ = false) (hR : m.sensor_type_ ≠ RADAR)
    (hL : m.sensor_type_ ≠ LASER) :
    ProcessMeasurementState m s =
      Prediction 0 { s with time_us_ := m.timestamp_, is_initialized_ := true } := by
  simp [ProcessMeasurementState, h, hR, hL, sub_self, zero_div]

/-- Once initialized, a lidar measurement runs `Prediction` on the elapsed
interval and then `UpdateLidar`. -/
lemma processMeasurementState_done_lidar (m : MeasurementPackage) (s : UKFState)
    (h : ¬ s.is_initialized_ = false) (hs : m.sensor_type_ = LASER) :
    ProcessMeasurementState m s = UpdateLidar m (predictedState m s) := by
  have hR : ¬ m.sensor_type_ = RADAR := by
    rw [hs]
    exact LASER_ne_RADAR
  simp [ProcessMeasurementState, predictedState, h, hR, hs, LASER_ne_RADAR]

/-- Once initialized, a radar measurement runs `Prediction` on the elapsed
interval and then `UpdateRadar`. -/
lemma processMeasurementState_done_radar (m : MeasurementPackage) (s : UKFState)
    (h : ¬ s.is_initialized_ = false) (hs : m.sensor_type_ = RADAR) :
    ProcessMeasurementState m s = UpdateRadar m (predictedState m s) := by
  simp [ProcessMeasurementState, predictedState, h, hs]

/-- Once initialized, a measurement of unrecognized sensor type runs
`Prediction` and performs no update. -/
lemma processMeasurementState_done_unknown (m : MeasurementPackage) (s : UKFState)
    (h : ¬ s.is_initialized_ = false) (hR : m.sensor_type_ ≠ RADAR)
    (hL : m.sensor_type_ ≠ LASER) :
    ProcessMeasurementState m s = predictedState m s := by
  simp [ProcessMeasurementState, predictedState, h, hR, hL]

/-- Each processed measurement appends one scalar to the NIS history of its
own sensor type and leaves the other history unchanged. -/
lemma processMeasurementState_nis (m : MeasurementPackage) (s : UKFState) :
    ∃ a b : ℝ,
      (ProcessMeasurementState m s).nis_laser_
        = s.nis_laser_ ++ (if m.sensor_type_ = LASER then [a] else [])
      ∧ (ProcessMeasurementState m s).nis_radar_
        = s.nis_radar_ ++ (if m.sensor_type_ = RADAR then [b] else []) := by
  by_cases hL : m.sensor_type_ = LASER
  · have hR : m.sensor_type_ ≠ RADAR := by
      rw [hL]
      exact LASER_ne_RADAR
    by_cases h : s.is_initialized_ = false
    · refine ⟨lidarNIS m (Prediction 0 (lidarFirstState m s)), 0, ?_, ?_⟩ <;>
        rw [processMeasurementState_first_lidar m s h hL] <;>
        simp [hL, hR, lidarFirstState, LASER_ne_RADAR]
    · refine ⟨lidarNIS m (predictedState m s), 0, ?_, ?_⟩ <;>
        rw [processMeasurementState_done_lidar m s h hL] <;>
        simp [hL, hR, predictedState, LASER_ne_RADAR]
  · by_cases hR : m.sensor_type_ = RADAR
    · by_cases h : s.is_initialized_ = false
      · refine ⟨0, radarNIS m (Prediction 0 (radarFirstState m s)), ?_, ?_⟩ <;>
          rw [processMeasurementState_first_radar m s h hR] <;>
          simp [hL, hR, radarFirstState, RADAR_ne_LASER]
      · refine ⟨0, radarNIS m (predictedState m s), ?_, ?_⟩ <;>
          rw [processMeasurementState_done_radar m s h hR] <;>
          simp [hL, hR, predictedState, RADAR_ne_LASER]
    · by_cases h : s.is_initialized_ = false
      · refine ⟨0, 0, ?_, ?_⟩ <;>
          rw [processMeasurementState_first_unknown m s h hR hL] <;>
          simp [hL, hR]
      · refine ⟨0, 0, ?_, ?_⟩ <;>
          rw [processMeasurementState_done_unknown m s h hR hL] <;>
          simp [hL, hR, predictedState]

/-! ### Claim C4: sigma-point weights -/

/-- C4: with `L = n_aug_ = 7` and `λ = 3 - L = -4`, `Prediction` sets
`weight₀ = λ/(λ+L) = -4/3` (negative) and every other weight to
`1/(2(λ+L)) = 1/6`, and the 15 weights sum to exactly `1`. -/
theorem prediction_weights_C4 :
    ∀ (delta_t : ℝ) (s : UKFState),
      (Prediction delta_t s).weights_ = weightsVec
    ∧ (weightsVec 0 = lambda_ / (lambda_ + (n_aug_ : ℝ))
        ∧ weightsVec 0 = -(4 / 3) ∧ weightsVec 0 < 0)
    ∧ (∀ i : Fin 14, weightsVec i.succ = 0.5 / ((n_aug_ : ℝ) + lambda_)
        ∧ weightsVec i.succ = 1 / 6)
    ∧ ∑ i : Fin 15, weightsVec i = 1 := by
  intro delta_t s
  refine ⟨rfl, ⟨rfl, ?_, ?_⟩, ?_, ?_⟩
  · norm_num [weightsVec, lambda_, n_aug_, n_x_]
  · norm_num [weightsVec, lambda_, n_aug_, n_x_]
  · intro i
    constructor
    · simp [weightsVec, Fin.val_succ]
    · simp [weightsVec, Fin.val_succ]
      norm_num [lambda_, n_aug_, n_x_]
  · simp [Fin.sum_univ_succ, weightsVec, Fin.val_succ]
    norm_num [lambda_, n_aug_, n_x_]

/-! ### Claim C7: CTRV yaw-rate guard -/

/-- C7: the CTRV propagation uses the closed-form integration (dividing by
the yaw rate) exactly when `|yawd| > 1e-3`, in which case the divisor is
nonzero, and otherwise the straight-line approximation
`px + v·Δt·cos(yaw)`, `py + v·Δt·sin(yaw)` (plus the noise terms), so the
division by the yaw rate only ever executes under the guard. -/
theorem ctrv_guard_C7 :
    ∀ (delta_t : ℝ) (pt : Fin 7 → ℝ),
      ((0.001 : ℝ) < |pt 4| →
        pt 4 ≠ 0
        ∧ ctrvProcess delta_t pt 0 =
            pt 0 + pt 2 / pt 4 * (Real.sin (pt 3 + pt 4 * delta_t) - Real.sin (pt 3))
              + 0.5 * pt 5 * delta_t * delta_t * Real.cos (pt 3)
        ∧ ctrvProcess delta_t pt 1 =
            pt 1 + pt 2 / pt 4 * (Real.cos (pt 3) - Real.cos (pt 3 + pt 4 * delta_t))
              + 0.5 * pt 5 * delta_t * delta_t * Real.sin (pt 3))
    ∧ (¬ (0.001 : ℝ) < |pt 4| →
        ctrvProcess delta_t pt 0 =
            pt 0 + pt 2 * delta_t * Real.cos (pt 3)
              + 0.5 * pt 5 * delta_t * delta_t * Real.cos (pt 3)
        ∧ ctrvProcess delta_t pt 1 =
            pt 1 + pt 2 * delta_t * Real.sin (pt 3)
              + 0.5 * pt 5 * delta_t * delta_t * Real.sin (pt 3)) := by
  intro delta_t pt
  constructor
  · intro h
    refine ⟨?_, ?_, ?_⟩
    · have : (0:ℝ) < |pt 4| := lt_trans (by norm_num) h
      exact abs_pos.mp this
    · simp [ctrvProcess, h]
    · simp [ctrvProcess, h]
  · intro h
    constructor
    · simp [ctrvProcess, h]
    · simp [ctrvProcess, h]

/-! ### Claim C6: angle normalization -/

/-- C6 counterexample: the input `-π` is a fixed point of the normalization
loops, and `-π` does not lie in the half-open interval `(-π, π]` the claim
states. -/
theorem normalizeAngle_C6_cex :
    normalizeAngle (-Real.pi) = -Real.pi
    ∧ ¬ (-Real.pi < normalizeAngle (-Real.pi)) := by
  have hpi : (0:ℝ) < Real.pi := Real.pi_pos
  have h1 : normTop (-Real.pi) = -Real.pi := by
    rw [normTop, dif_neg (by linarith)]
  have h2 : normalizeAngle (-Real.pi) = -Real.pi := by
    rw [normalizeAngle, h1, normBot, dif_neg (lt_irrefl _)]
  exact ⟨h2, by rw [h2]; exact lt_irrefl _⟩

/-- C6 (amended): for every real input the normalization loop terminates
(it is a total function) and produces a value differing from the input by an
integer multiple of `2π` that lies in the closed interval `[-π, π]`; the
endpoint `-π` is genuinely attained — both `-π` and `-3π` map to `-π` — so
the claimed half-open interval `(-π, π]` fails only at that endpoint; an
input of `4.0` rad yields `4.0 - 2π`. -/
theorem normalizeAngle_C6 :
    (∀ x : ℝ, ∃ k : ℤ, normalizeAngle x = x - 2 * Real.pi * k
      ∧ -Real.pi ≤ normalizeAngle x ∧ normalizeAngle x ≤ Real.pi)
    ∧ normalizeAngle 4 = 4 - 2 * Real.pi
    ∧ normalizeAngle (-(3 * Real.pi)) = -Real.pi := by
  have hpi : (0:ℝ) < Real.pi := Real.pi_pos
  refine ⟨normalizeAngle_spec, ?_, ?_⟩
  · have h3 : (3:ℝ) < Real.pi := Real.pi_gt_three
    have h4 : Real.pi < 3.15 := Real.pi_lt_d2
    have h1 : normTop 4 = 4 - 2 * Real.pi := by
      rw [normTop, dif_pos (by linarith)]
      rw [normTop, dif_neg (by linarith)]
    rw [normalizeAngle, h1, normBot, dif_neg (by linarith)]
  · have h1 : normTop (-(3 * Real.pi)) = -(3 * Real.pi) := by
      rw [normTop, dif_neg (by linarith)]
    have h2 : -(3 * Real.pi) + 2 * Real.pi = -Real.pi := by ring
    rw [normalizeAngle, h1, normBot, dif_pos (by linarith), h2, normBot,
      dif_neg (lt_irrefl _)]

/-! ### Claim C8: initialization values -/

/-- C8: a first lidar measurement with raw values `px=1, py=2` initializes
the state to `[1, 2, 0, 0, 0]` and `P` to
`diag(std_laspx², std_laspy², 1, 1, 1)`; a first radar measurement with
`range=5, bearing=0, range_rate=0` initializes the state to
`[5, 0, 0, 0, 0]`. -/
theorem firstInit_values_C8 :
    ∀ (s : UKFState) (t : ℤ),
      (lidarFirstState ⟨LASER, t, ![1, 2, 0]⟩ s).x_ = ![1, 2, 0, 0, 0]
    ∧ (lidarFirstState ⟨LASER, t, ![1, 2, 0]⟩ s).P_ =
        Matrix.diagonal ![std_laspx_ * std_laspx_, std_laspy_ * std_laspy_, 1, 1, 1]
    ∧ (radarFirstState ⟨RADAR, t, ![5, 0, 0]⟩ s).x_ = ![5, 0, 0, 0, 0] := by
  intro s t
  refine ⟨?_, ?_, ?_⟩
  · funext i
    fin_cases i <;> simp [lidarFirstState, lidarInitX]
  · funext i j
    fin_cases i <;> fin_cases j <;>
      simp [lidarFirstState, lidarInitP, Matrix.diagonal, Matrix.vecHead, Matrix.vecTail]
  · funext i
    fin_cases i <;>
      simp [radarFirstState, radarInitX, Real.cos_zero, Real.sin_zero, Real.sqrt_zero]

/-! ### Claim C1: behaviour of the first call -/

/-- C1 counterexample: on the very first measurement (lidar, fresh state) the
call does not return after initialization — a measurement update runs and
appends a NIS scalar, so the lidar NIS history grows from length 0 to 1. -/
theorem processMeasurement_firstCall_C1_cex :
    ((ProcessMeasurement ⟨LASER, 0, ![1, 2, 0]⟩ freshState).map
        (fun st => st.nis_laser_.length) = Except.ok 1)
    ∧ freshState.nis_laser_.length = 0 := by
  constructor
  · rw [ProcessMeasurement,
      processMeasurementState_first_lidar ⟨LASER, 0, ![1, 2, 0]⟩ freshState rfl rfl]
    simp [Except.map, lidarFirstState, freshState]
  · rfl

/-- C1 (amended): on the first call the estimator initializes `x` and `P` by
sensor type and records the timestamp, but it does not return early: it
proceeds with `Δt = 0`, runs `Prediction(0)` and performs the sensor's
measurement update, appending one NIS scalar. -/
theorem processMeasurement_firstCall_C1 :
    ∀ (s : UKFState) (m : MeasurementPackage), s.is_initialized_ = false →
      (m.sensor_type_ = LASER →
        ProcessMeasurement m s =
          Except.ok (UpdateLidar m (Prediction 0 (lidarFirstState m s)))
        ∧ (UpdateLidar m (Prediction 0 (lidarFirstState m s))).nis_laser_.length
            = s.nis_laser_.length + 1
        ∧ (UpdateLidar m (Prediction 0 (lidarFirstState m s))).time_us_ = m.timestamp_)
    ∧ (m.sensor_type_ = RADAR →
        ProcessMeasurement m s =
          Except.ok (UpdateRadar m (Prediction 0 (radarFirstState m s)))
        ∧ (UpdateRadar m (Prediction 0 (radarFirstState m s))).nis_radar_.length
            = s.nis_radar_.length + 1
        ∧ (UpdateRadar m (Prediction 0 (radarFirstState m s))).time_us_ = m.timestamp_) := by
  intro s m h
  constructor
  · intro hs
    refine ⟨?_, ?_, ?_⟩
    · rw [ProcessMeasurement, processMeasurementState_first_lidar m s h hs]
    · simp [lidarFirstState]
    · simp [lidarFirstState]
  · intro hs
    refine ⟨?_, ?_, ?_⟩
    · rw [ProcessMeasurement, processMeasurementState_first_radar m s h hs]
    · simp [radarFirstState]
    · simp [radarFirstState]

/-- C1 witness: the amended first-call behaviour at the concrete first lidar
measurement `(px, py) = (1, 2)` on a fresh estimator. -/
theorem processMeasurement_firstCall_C1_witness :
    freshState.is_initialized_ = false
    ∧ ((⟨LASER, 0, ![1, 2, 0]⟩ : MeasurementPackage).sensor_type_ = LASER →
        ProcessMeasurement ⟨LASER, 0, ![1, 2, 0]⟩ freshState =
          Except.ok (UpdateLidar ⟨LASER, 0, ![1, 2, 0]⟩
            (Prediction 0 (lidarFirstState ⟨LASER, 0, ![1, 2, 0]⟩ freshState)))
        ∧ (UpdateLidar ⟨LASER, 0, ![1, 2, 0]⟩
            (Prediction 0 (lidarFirstState ⟨LASER, 0, ![1, 2, 0]⟩ freshState))).nis_laser_.length
            = freshState.nis_laser_.length + 1
        ∧ (UpdateLidar ⟨LASER, 0, ![1, 2, 0]⟩
            (Prediction 0 (lidarFirstState ⟨LASER, 0, ![1, 2, 0]⟩ freshState))).time_us_
            = (⟨LASER, 0, ![1, 2, 0]⟩ : MeasurementPackage).timestamp_) :=
  ⟨rfl, (processMeasurement_firstCall_C1 freshState ⟨LASER, 0, ![1, 2, 0]⟩ rfl).1⟩

/-! ### Claim C2: unrecognized sensor type -/

/-- C2 counterexample: a first measurement with sensor type `2` (neither
`LASER = 0` nor `RADAR = 1`) produces no `InitializationError` — the call
returns `Except.ok`, marks the filter initialized and appends to neither NIS
history: it is silently ignored. -/
theorem processMeasurement_unknownSensor_C2_cex :
    ProcessMeasurement ⟨2, 0, ![0, 0, 0]⟩ freshState ≠
      Except.error UKFError.InitializationError
    ∧ (ProcessMeasurementState ⟨2, 0, ![0, 0, 0]⟩ freshState).is_initialized_ = true
    ∧ (ProcessMeasurementState ⟨2, 0, ![0, 0, 0]⟩ freshState).nis_laser_ = []
    ∧ (ProcessMeasurementState ⟨2, 0, ![0, 0, 0]⟩ freshState).nis_radar_ = [] := by
  have h := processMeasurementState_first_unknown ⟨2, 0, ![0, 0, 0]⟩ freshState rfl
    (by norm_num [RADAR]) (by norm_num [LASER])
  refine ⟨?_, ?_, ?_, ?_⟩
  · simp [ProcessMeasurement]
  · rw [h]; rfl
  · rw [h]; rfl
  · rw [h]; rfl

/-- C2 (amended): for a first measurement whose sensor type is neither LIDAR
nor RADAR, `processMeasurement` signals nothing: it returns normally, records
the timestamp, marks the filter initialized (leaving `x` and `P` untouched by
the init branch), runs the zero-interval prediction, performs no measurement
update and appends to neither NIS history — the measurement is silently
ignored. -/
theorem processMeasurement_unknownSensor_C2 :
    ∀ (s : UKFState) (m : MeasurementPackage),
      s.is_initialized_ = false → m.sensor_type_ ≠ RADAR → m.sensor_type_ ≠ LASER →
      ProcessMeasurement m s =
        Except.ok (Prediction 0 { s with time_us_ := m.timestamp_, is_initialized_ := true })
      ∧ (ProcessMeasurementState m s).nis_laser_ = s.nis_laser_
      ∧ (ProcessMeasurementState m s).nis_radar_ = s.nis_radar_
      ∧ (ProcessMeasurementState m s).is_initialized_ = true
      ∧ (ProcessMeasurementState m s).time_us_ = m.timestamp_ := by
  intro s m h hR hL
  have hu := processMeasurementState_first_unknown m s h hR hL
  refine ⟨?_, ?_, ?_, ?_, ?_⟩
  · rw [ProcessMeasurement, hu]
  · rw [hu]; rfl
  · rw [hu]; rfl
  · rw [hu]; rfl
  · rw [hu]; rfl

/-- C2 witness: the amended behaviour at the concrete unrecognized sensor
type `2` on a fresh estimator. -/
theorem processMeasurement_unknownSensor_C2_witness :
    freshState.is_initialized_ = false
    ∧ (⟨2, 0, ![0, 0, 0]⟩ : MeasurementPackage).sensor_type_ ≠ RADAR
    ∧ (⟨2, 0, ![0, 0, 0]⟩ : MeasurementPackage).sensor_type_ ≠ LASER
    ∧ (ProcessMeasurement ⟨2, 0, ![0, 0, 0]⟩ freshState =
        Except.ok (Prediction 0
          { freshState with
              time_us_ := (⟨2, 0, ![0, 0, 0]⟩ : MeasurementPackage).timestamp_,
              is_initialized_ := true })
      ∧ (ProcessMeasurementState ⟨2, 0, ![0, 0, 0]⟩ freshState).nis_laser_ = freshState.nis_laser_
      ∧ (ProcessMeasurementState ⟨2, 0, ![0, 0, 0]⟩ freshState).nis_radar_ = freshState.nis_radar_
      ∧ (ProcessMeasurementState ⟨2, 0, ![0, 0, 0]⟩ freshState).is_initialized_ = true
      ∧ (ProcessMeasurementState ⟨2, 0, ![0, 0, 0]⟩ freshState).time_us_
          = (⟨2, 0, ![0, 0, 0]⟩ : MeasurementPackage).timestamp_) :=
  ⟨rfl, by norm_num [RADAR], by norm_num [LASER],
    processMeasurement_unknownSensor_C2 freshState ⟨2, 0, ![0, 0, 0]⟩ rfl
      (by norm_num [RADAR]) (by norm_num [LASER])⟩

/-! ### Claim C3: degenerate radar geometry -/

/-- C3 counterexample: on a state whose predicted sigma points all have
`px = py = 0` (range 0 in the radar measurement model), the radar update does
not reject the measurement and no `DegenerateRadarGeometry` result reaches
the caller: the update proceeds and appends a NIS scalar. -/
theorem updateRadar_degenerate_C3_cex :
    degState.Xsig_pred_ 0 0 = 0
    ∧ degState.Xsig_pred_ 1 0 = 0
    ∧ (UpdateRadar ⟨RADAR, 0, ![0, 0, 0]⟩ degState).nis_radar_.length = 1
    ∧ UpdateRadar ⟨RADAR, 0, ![0, 0, 0]⟩ degState ≠ degState
    ∧ ProcessMeasurement ⟨RADAR, 0, ![0, 0, 0]⟩ degState ≠
        Except.error UKFError.DegenerateRadarGeometry := by
  refine ⟨rfl, rfl, ?_, ?_, ?_⟩
  · simp [degState]
  · intro hEq
    have h := congrArg (fun st => st.nis_radar_.length) hEq
    simp [degState] at h
  · simp [ProcessMeasurement]

/-- C3 (amended): the radar measurement model is evaluated without any
degenerate-geometry guard: on a predicted sigma point with `px = py = 0` the
range evaluates to 0 and the range-rate expression divides by that zero
range; the update nevertheless proceeds unconditionally, appending a NIS
scalar, and no `DegenerateRadarGeometry` result is ever surfaced to the
caller. -/
theorem updateRadar_degenerate_C3 :
    ∀ (s : UKFState) (m : MeasurementPackage) (k : Fin 15),
      s.Xsig_pred_ 0 k = 0 → s.Xsig_pred_ 1 k = 0 →
      Real.sqrt (s.Xsig_pred_ 0 k * s.Xsig_pred_ 0 k +
        s.Xsig_pred_ 1 k * s.Xsig_pred_ 1 k) = 0
      ∧ radarZsig s 0 k = 0
      ∧ (UpdateRadar m s).nis_radar_ = s.nis_radar_ ++ [radarNIS m s]
      ∧ ProcessMeasurement m s ≠ Except.error UKFError.DegenerateRadarGeometry := by
  intro s m k h0 h1
  refine ⟨?_, ?_, rfl, ?_⟩
  · rw [h0, h1]
    simp
  · simp [radarZsig, h0, h1]
  · simp [ProcessMeasurement]

/-- C3 witness: the amended behaviour at the concrete all-degenerate state
and a radar measurement at the origin. -/
theorem updateRadar_degenerate_C3_witness :
    degState.Xsig_pred_ 0 0 = 0
    ∧ degState.Xsig_pred_ 1 0 = 0
    ∧ (Real.sqrt (degState.Xsig_pred_ 0 0 * degState.Xsig_pred_ 0 0 +
          degState.Xsig_pred_ 1 0 * degState.Xsig_pred_ 1 0) = 0
      ∧ radarZsig degState 0 0 = 0
      ∧ (UpdateRadar ⟨RADAR, 0, ![0, 0, 0]⟩ degState).nis_radar_
          = degState.nis_radar_ ++ [radarNIS ⟨RADAR, 0, ![0, 0, 0]⟩ degState]
      ∧ ProcessMeasurement ⟨RADAR, 0, ![0, 0, 0]⟩ degState ≠
          Except.error UKFError.DegenerateRadarGeometry) :=
  ⟨rfl, rfl, updateRadar_degenerate_C3 degState ⟨RADAR, 0, ![0, 0, 0]⟩ 0 rfl rfl⟩

/-! ### Claim C9: NIS histories -/

/-- C9: each lidar update appends exactly one scalar to the lidar NIS history
and each radar update appends exactly one scalar to the radar NIS history
(leaving the other history unchanged); over any processed measurement
sequence the histories are append-only, and the final lengths equal the
number of measurements of each sensor type processed. -/
theorem nis_histories_C9 :
    (∀ (m : MeasurementPackage) (s : UKFState),
        (UpdateLidar m s).nis_laser_ = s.nis_laser_ ++ [lidarNIS m s]
      ∧ (UpdateLidar m s).nis_radar_ = s.nis_radar_
      ∧ (UpdateRadar m s).nis_radar_ = s.nis_radar_ ++ [radarNIS m s]
      ∧ (UpdateRadar m s).nis_laser_ = s.nis_laser_)
    ∧ (∀ (ms : List MeasurementPackage) (s : UKFState),
        (∃ tl tr, (runFilter ms s).nis_laser_ = s.nis_laser_ ++ tl
          ∧ (runFilter ms s).nis_radar_ = s.nis_radar_ ++ tr)
      ∧ (runFilter ms s).nis_laser_.length
          = s.nis_laser_.length + ms.countP (fun mm => decide (mm.sensor_type_ = LASER))
      ∧ (runFilter ms s).nis_radar_.length
          = s.nis_radar_.length + ms.countP (fun mm => decide (mm.sensor_type_ = RADAR))) := by
  constructor
  · intro m s
    exact ⟨rfl, rfl, rfl, rfl⟩
  · intro ms
    induction ms with
    | nil =>
      intro s
      exact ⟨⟨[], [], by simp [runFilter], by simp [runFilter]⟩, by simp [runFilter],
        by simp [runFilter]⟩
    | cons m ms ih =>
      intro s
      have hrun : runFilter (m :: ms) s = runFilter ms (ProcessMeasurementState m s) := rfl
      obtain ⟨a, b, hl, hr⟩ := processMeasurementState_nis m s
      obtain ⟨⟨tl, tr, ihl, ihr⟩, ihlenL, ihlenR⟩ := ih (ProcessMeasurementState m s)
      refine ⟨⟨(if m.sensor_type_ = LASER then [a] else []) ++ tl,
        (if m.sensor_type_ = RADAR then [b] else []) ++ tr, ?_, ?_⟩, ?_, ?_⟩
      · rw [hrun, ihl, hl, List.append_assoc]
      · rw [hrun, ihr, hr, List.append_assoc]
      · rw [hrun, ihlenL, hl, List.countP_cons, List.length_append]
        by_cases hL : m.sensor_type_ = LASER
        · simp [hL]
          omega
        · simp [hL]
      · rw [hrun, ihlenR, hr, List.countP_cons, List.length_append]
        by_cases hR : m.sensor_type_ = RADAR
        · simp [hR]
          omega
        · simp [hR]

/-- Boundedness of a `List` optional access: `l[i]?` is `some` exactly when
`i` is in bounds. -/
lemma getElem_opt_isSome {l : List ℝ} {i : ℕ} : l[i]?.isSome = true ↔ i < l.length := by
  constructor
  · intro h
    by_contra hn
    rw [List.getElem?_eq_none (by omega)] at h
    simp at h
  · intro h
    rw [List.getElem?_eq_getElem h]
    simp

/-! ### Claim C10: printNIS pairing -/

/-- C10: `printNIS` reads the row `(i, radar NIS i, lidar NIS i)` for exactly
the indices `i` below the radar history length; the radar accesses are always
in bounds, and every lidar access is in bounds precisely when the lidar
history is at least as long as the radar history. -/
theorem printNIS_rows_C10 :
    ∀ s : UKFState,
      (printNISRows s).map (fun p => p.1) = List.range s.nis_radar_.length
    ∧ (∀ p ∈ printNISRows s, (p.2.1).isSome = true)
    ∧ ((∀ p ∈ printNISRows s, (p.2.2).isSome = true) ↔
        s.nis_radar_.length ≤ s.nis_laser_.length) := by
  intro s
  refine ⟨?_, ?_, ?_, ?_⟩
  · simp only [printNISRows, List.map_map]
    exact List.map_id' _ ..
  · intro p hp
    simp only [printNISRows, List.mem_map, List.mem_range] at hp
    obtain ⟨i, hi, rfl⟩ := hp
    simpa using getElem_opt_isSome.mpr hi
  · intro hall
    rcases Nat.eq_zero_or_pos s.nis_radar_.length with h0 | hpos
    · rw [h0]
      exact Nat.zero_le _
    · have hmem : (s.nis_radar_.length - 1,
          s.nis_radar_[s.nis_radar_.length - 1]?,
          s.nis_laser_[s.nis_radar_.length - 1]?) ∈ printNISRows s := by
        simp only [printNISRows, List.mem_map, List.mem_range]
        exact ⟨s.nis_radar_.length - 1, by omega, rfl⟩
      have h := hall _ hmem
      have h2 := getElem_opt_isSome.mp (by simpa using h)
      omega
  · intro hle p hp
    simp only [printNISRows, List.mem_map, List.mem_range] at hp
    obtain ⟨i, hi, rfl⟩ := hp
    simpa using getElem_opt_isSome.mpr (by omega)

/-! ### Claim C5: sign of the NIS scalar -/

lemma cexState_zsig (r : Fin 2) (k : Fin 15) :
    lidarZsig cexState r k = if (r : ℕ) = 0 ∧ (k : ℕ) = 0 then 1 else 0 := by
  simp [lidarZsig, cexState, cexXsig]

lemma cexState_zpred : lidarZpred cexState = ![-(4 / 3 : ℝ), 0] := by
  funext r
  simp only [lidarZpred, cexState_zsig]
  fin_cases r
  · simp [cexState, weightsVec, Fin.sum_univ_succ, Fin.val_succ]
    norm_num [lambda_, n_aug_, n_x_]
  · simp [cexState, weightsVec, Fin.sum_univ_succ, Fin.val_succ]

lemma cexState_S : lidarS cexState = !![-(11119 / 3600 : ℝ), 0; 0, 9 / 400] := by
  funext r c
  simp only [lidarS, Matrix.add_apply, Matrix.of_apply, cexState_zsig, cexState_zpred]
  fin_cases r <;> fin_cases c <;>
    simp [cexState, weightsVec, lidarR, Fin.sum_univ_succ, Fin.val_succ,
      std_laspx_, std_laspy_] <;>
    norm_num [lambda_, n_aug_, n_x_]

lemma cexState_Sinv : (lidarS cexState)⁻¹ = !![-(3600 / 11119 : ℝ), 0; 0, 400 / 9] := by
  rw [cexState_S, Matrix.inv_def]
  funext r c
  fin_cases r <;> fin_cases c <;>
    norm_num [Matrix.det_fin_two, Matrix.adjugate_fin_two, Ring.inverse_eq_inv,
      Matrix.smul_apply]

/-- C5 counterexample: a concrete lidar update in which the scalar appended
to the NIS history is negative.  With the source's weights (central weight
`-4/3`), predicted sigma points whose lidar projection is `(1,0)` in column 0
and `(0,0)` elsewhere give an indefinite innovation covariance
`S = diag(-11119/3600, 9/400)`, and the measurement `z = (0,0)` yields
NIS `= -6400/11119 < 0`. -/
theorem nis_nonneg_C5_cex :
    lidarNIS ⟨LASER, 0, ![0, 0, 0]⟩ cexState < 0
    ∧ (UpdateLidar ⟨LASER, 0, ![0, 0, 0]⟩ cexState).nis_laser_
        = [lidarNIS ⟨LASER, 0, ![0, 0, 0]⟩ cexState] := by
  constructor
  · simp only [lidarNIS, cexState_Sinv, cexState_zpred, lidarZ]
    norm_num [Matrix.dotProduct, Matrix.mulVec, Fin.sum_univ_two]
  · simp [cexState]

lemma normalizeAngle_zero : normalizeAngle 0 = 0 := by
  have hpi : (0:ℝ) < Real.pi := Real.pi_pos
  have h1 : normTop 0 = 0 := by
    rw [normTop, dif_neg (by linarith)]
  rw [normalizeAngle, h1, normBot, dif_neg (by linarith)]

lemma degState_lidarS : lidarS degState = lidarR := by
  funext r c
  simp [lidarS, lidarZsig, lidarZpred, degState]

lemma atan2_zero_zero : atan2 0 0 = 0 := by
  have h : ({ re := 0, im := 0 } : ℂ) = 0 := rfl
  rw [atan2, h, Complex.arg_zero]

lemma degState_radarZsig (r : Fin 3) (k : Fin 15) : radarZsig degState r k = 0 := by
  fin_cases r <;>
    simp [radarZsig, degState, atan2_zero_zero, Real.sqrt_zero]

lemma degState_radarS : radarS degState = radarR := by
  funext r c
  have hzp : radarZpred degState = 0 := by
    funext r2
    simp [radarZpred, degState_radarZsig]
  simp [radarS, radarZdiffN, degState_radarZsig, hzp, normalizeAngle_zero]

lemma lidarR_posDef : lidarR.PosDef := by
  have h : lidarR = Matrix.diagonal ![std_laspx_ * std_laspx_, std_laspy_ * std_laspy_] := by
    funext r c
    fin_cases r <;> fin_cases c <;> simp [lidarR, Matrix.diagonal, Matrix.vecHead, Matrix.vecTail]
  rw [h]
  refine Matrix.PosDef.diagonal ?_
  intro i
  fin_cases i <;> norm_num [std_laspx_, std_laspy_]

lemma radarR_posDef : radarR.PosDef := by
  have h : radarR = Matrix.diagonal
      ![std_radr_ * std_radr_, std_radphi_ * std_radphi_, std_radrd_ * std_radrd_] := by
    funext r c
    fin_cases r <;> fin_cases c <;> simp [radarR, Matrix.diagonal, Matrix.vecHead, Matrix.vecTail]
  rw [h]
  refine Matrix.PosDef.diagonal ?_
  intro i
  fin_cases i <;> norm_num [std_radr_, std_radphi_, std_radrd_]

/-- C5 (amended): the scalar appended to the NIS history, computed as
`residualᵗ·S⁻¹·residual`, is non-negative whenever the innovation covariance
`S` is positive definite — and that hypothesis is satisfiable, e.g. at the
state `degState` both innovation covariances reduce to the (positive
definite) sensor noise matrices.  Because the central sigma weight is
negative (`-4/3`), `S` need not be positive definite in general, and then
the NIS can be negative (see the counterexample). -/
theorem nis_nonneg_C5 :
    (∀ (s : UKFState) (m : MeasurementPackage),
        ((lidarS s).PosDef → 0 ≤ lidarNIS m s)
      ∧ ((radarS s).PosDef → 0 ≤ radarNIS m s))
    ∧ (lidarS degState).PosDef ∧ (radarS degState).PosDef := by
  refine ⟨?_, ?_, ?_⟩
  · intro s m
    constructor
    · intro hS
      have hinv := hS.inv.posSemidef
      have h := hinv.2 (lidarZ m - lidarZpred s)
      have hstar : star (lidarZ m - lidarZpred s) = lidarZ m - lidarZpred s := by
        funext i
        simp
      rw [hstar] at h
      simpa [lidarNIS] using h
    · intro hS
      have hinv := hS.inv.posSemidef
      have h := hinv.2 (radarResid m s)
      have hstar : star (radarResid m s) = radarResid m s := by
        funext i
        simp
      rw [hstar] at h
      simpa [radarNIS] using h
  · rw [degState_lidarS]
    exact lidarR_posDef
  · rw [degState_radarS]
    exact radarR_posDef

end UKF

end
